import Mathlib

/-!
Verification of the fm96 FM stereo multiplex encoder (src/fm96.c).

Shallow embedding: float samples are idealised as rationals, the DSP chain
of `main` (oscillator, per-channel preemphasis and low-pass biquads, stereo
multiplexer) is modelled sample-by-sample, and the per-block streaming loop
is modelled as a step function over an explicit trace of I/O events and an
external stop-request stream.

The helper library `dsp.h` is not part of the repository sources; its
operations (`apply_biquad`, the oscillator evaluate/advance split, the
`init_*` constructors) are modelled from the specification and marked
`Modelled from the spec:` in their doc comments.  Everything in `main`
(the branch structure of the loop, `uninterleave`, the multiplexer formula
at lines 187-195) is translated directly from src/fm96.c.
-/

namespace FM96

/-- BUFFER_SIZE from src/fm96.c line 17: samples per mono block. -/
def BUFFER_SIZE : Nat := 768

/-- Oscillator state: a phase accumulator (in turns, i.e. fractions of a
full cycle), with the frequency and sample rate fixed at construction. -/
structure Oscillator where
  phase : ℚ
  freq : ℚ
  sampleRate : ℚ
  deriving DecidableEq

/-- Fractional part, used to wrap the phase accumulator into [0, 1). -/
def fract (x : ℚ) : ℚ := x - ⌊x⌋

/-- Modelled from the spec: dsp.h is not in src/.  Per §4.1,
`evaluate(harmonic)` returns the sine of `harmonic * phase` without
mutating the phase.  `sinT` is the (abstract) sine-of-a-turn function; the
development is parametric in it, since only phase bookkeeping matters for
the claims. -/
def Oscillator.evaluate (sinT : ℚ → ℚ) (o : Oscillator) (harmonic : ℚ) : ℚ :=
  sinT (harmonic * o.phase)

/-- Modelled from the spec: dsp.h is not in src/.  Per §4.1, `advance`
moves the phase forward by frequency/sample_rate of a cycle, wrapped
modulo one full cycle. -/
def Oscillator.advance (o : Oscillator) : Oscillator :=
  { o with phase := fract (o.phase + o.freq / o.sampleRate) }

/-- Biquad filter: five coefficients fixed at construction plus a
4-element delay line (last two inputs, last two outputs). -/
structure BiquadFilter where
  b0 : ℚ
  b1 : ℚ
  b2 : ℚ
  a1 : ℚ
  a2 : ℚ
  x1 : ℚ
  x2 : ℚ
  y1 : ℚ
  y2 : ℚ
  deriving DecidableEq

/-- Modelled from the spec: dsp.h is not in src/.  Per §4.2,
`apply_biquad` computes `y = b0*x + b1*x1 + b2*x2 - a1*y1 - a2*y2`, then
shifts the delay line and returns y. -/
def BiquadFilter.apply (f : BiquadFilter) (x : ℚ) : BiquadFilter × ℚ :=
  let y := f.b0 * x + f.b1 * f.x1 + f.b2 * f.x2 - f.a1 * f.y1 - f.a2 * f.y2
  ({ f with x1 := x, x2 := f.x1, y1 := y, y2 := f.y1 }, y)

/-- One audio channel of the filter chain: the preemphasis biquad feeding
the low-pass biquad, in that fixed order (src/fm96.c lines 138-148 wire
`preemp_*` output into `lpf_preemp_*`, the input of `lpf_*`). -/
structure Channel where
  preemp : BiquadFilter
  lpf : BiquadFilter
  deriving DecidableEq

/-- One sample through a channel: preemphasis first, its output into the
low-pass filter (src/fm96.c lines 180-185). -/
def Channel.step (c : Channel) (x : ℚ) : Channel × ℚ :=
  let p := c.preemp.apply x
  let l := c.lpf.apply p.2
  ({ preemp := p.1, lpf := l.1 }, l.2)

/-- The multiplexer branch, src/fm96.c lines 187-194.  Note the local
float `stereo` (line 188) shadows the command-line flag `int stereo`
(line 41), so the `if(stereo)` at line 190 tests the just-computed
difference sample for being nonzero; the `stereoFlag` parameter (the
command-line option) is consequently unused, exactly as in the source. -/
def compositeSample (stereoFlag : Bool) (lpf_out_l lpf_out_r pilot_s stereo_carrier : ℚ) : ℚ :=
  let mono := (lpf_out_l + lpf_out_r) / 2
  let stereo := (lpf_out_l - lpf_out_r) / 2
  if stereo ≠ 0 then
    mono * 0.45 + pilot_s * 0.09 + (stereo * stereo_carrier) * 0.45
  else
    mono

/-- One composite output sample, src/fm96.c lines 187-195: the branch of
lines 190-194 followed by the unconditional `output[i] += mpx_in[i]`. -/
def mpxSample (stereoFlag : Bool) (lpf_out_l lpf_out_r pilot_s stereo_carrier mpx_in : ℚ) : ℚ :=
  compositeSample stereoFlag lpf_out_l lpf_out_r pilot_s stereo_carrier + mpx_in

/-- The per-sample mutable DSP state of `main`: the pilot oscillator and
the two filter channels. -/
structure DSPState where
  pilot : Oscillator
  chL : Channel
  chR : Channel
  deriving DecidableEq

/-- The body of the per-sample loop, src/fm96.c lines 173-195: evaluate
the oscillator fundamental and second harmonic from the current phase,
advance the oscillator once, push the left and right samples through
preemphasis-then-lowpass, and combine into one composite sample. -/
def sampleStep (sinT : ℚ → ℚ) (stereoFlag : Bool) (st : DSPState) (l r mpx : ℚ) :
    DSPState × ℚ :=
  let pilot_s := st.pilot.evaluate sinT 1
  let stereo_carrier := st.pilot.evaluate sinT 2
  let pilot' := st.pilot.advance
  let sl := st.chL.step l
  let sr := st.chR.step r
  ({ pilot := pilot', chL := sl.1, chR := sr.1 },
   mpxSample stereoFlag sl.2 sr.2 pilot_s stereo_carrier mpx)

/-- `uninterleave`, src/fm96.c lines 27-32: for i < num_samples/2,
left[i] = input[2i] and right[i] = input[2i+1].  Out-of-range reads
default to 0 (in the program the input block always has
`num_samples` scalars). -/
def uninterleave (input : List ℚ) (num_samples : Nat) : List ℚ × List ℚ :=
  ((List.range (num_samples / 2)).map fun i => input.getD (2 * i) 0,
   (List.range (num_samples / 2)).map fun i => input.getD (2 * i + 1) 0)

/-- The triple (left[i], right[i], mpx_in[i]) consumed at index i of the
per-sample loop of src/fm96.c lines 173-196. -/
def mkTriples (left right mpx : List ℚ) : List (ℚ × ℚ × ℚ) :=
  (List.range BUFFER_SIZE).map fun i => (left.getD i 0, right.getD i 0, mpx.getD i 0)

/-- The per-sample loop, src/fm96.c lines 173-196: fold `sampleStep` over
the block in index order, collecting the composite output block. -/
def processSamples (sinT : ℚ → ℚ) (flag : Bool) :
    DSPState → List (ℚ × ℚ × ℚ) → DSPState × List ℚ
  | st, [] => (st, [])
  | st, t :: ts =>
    let r := sampleStep sinT flag st t.1 t.2.1 t.2.2
    let rest := processSamples sinT flag r.1 ts
    (rest.1, r.2 :: rest.2)

/-- One block: `uninterleave` the interleaved input (src/fm96.c line 171,
called with BUFFER_SIZE*2) and run the per-sample loop. -/
def processBlock (sinT : ℚ → ℚ) (flag : Bool) (st : DSPState) (input mpx : List ℚ) :
    DSPState × List ℚ :=
  let lr := uninterleave input (BUFFER_SIZE * 2)
  processSamples sinT flag st (mkTriples lr.1 lr.2 mpx)

/-- Static configuration of the streaming loop: the parsed `--stereo`
flag (src/fm96.c line 41; dead because of the line-188 shadowing) and
whether an external MPX device name was given
(`strlen(audio_mpx_device) != 0`, lines 121 and 164). -/
structure Config where
  stereoFlag : Bool
  mpxConfigured : Bool

/-- The external I/O outcomes one loop iteration can observe: the input
read (none = failure), the MPX read (consulted only when configured), and
whether the output write succeeds. -/
structure Event where
  inputRead : Option (List ℚ)
  mpxRead : Option (List ℚ)
  writeOk : Bool

/-- State of the streaming loop of src/fm96.c lines 158-203: the
`running` flag, a cursor into the stream of stop-request observations
(one observation per `while(running)` check), the DSP state, the
`mpx_in` buffer (line 156, zero-initialised), and the blocks written so
far to the output device. -/
structure LoopState where
  running : Bool
  flagCursor : Nat
  dsp : DSPState
  mpxBuf : List ℚ
  written : List (List ℚ)

/-- One iteration of the `while(running)` loop, src/fm96.c lines 158-203.
`flags` is the stream of stop-request states delivered by the signal
handler (src/fm96.c lines 21-25), observed exactly once at the loop head.
A failed input read, a failed MPX read (when configured), or a failed
write clears `running` and breaks; a successful iteration appends the
fully computed output block. -/
def loopIter (sinT : ℚ → ℚ) (cfg : Config) (flags : Nat → Bool)
    (st : LoopState) (e : Event) : LoopState :=
  if st.running = false then st
  else
    let cur := st.flagCursor
    if flags cur then
      { st with running := false, flagCursor := cur + 1 }
    else
      match e.inputRead with
      | none => { st with running := false, flagCursor := cur + 1 }
      | some input =>
        match (if cfg.mpxConfigured then e.mpxRead else some st.mpxBuf) with
        | none => { st with running := false, flagCursor := cur + 1 }
        | some mpxBuf' =>
          let r := processBlock sinT cfg.stereoFlag st.dsp input mpxBuf'
          if e.writeOk then
            { st with flagCursor := cur + 1, dsp := r.1, mpxBuf := mpxBuf',
                      written := st.written ++ [r.2] }
          else
            { st with running := false, flagCursor := cur + 1, dsp := r.1,
                      mpxBuf := mpxBuf' }

/-- The streaming loop over a finite trace of I/O events. -/
def runLoop (sinT : ℚ → ℚ) (cfg : Config) (flags : Nat → Bool) :
    LoopState → List Event → LoopState
  | st, [] => st
  | st, e :: es => runLoop sinT cfg flags (loopIter sinT cfg flags st e) es

/-- Initial loop state, src/fm96.c lines 154-157: running, the MPX buffer
zero-filled (`float mpx_in[BUFFER_SIZE] = {0}`), nothing written. -/
def initLoopState (dsp : DSPState) : LoopState :=
  { running := true, flagCursor := 0, dsp := dsp,
    mpxBuf := List.replicate BUFFER_SIZE 0, written := [] }

/-- Modelled from the spec: dsp.h is not in src/.  Per §4.1 and §7, the
oscillator constructor requires 0 < frequency < sample_rate/2 and reports
a violation as a construction failure. -/
def init_sine_oscillator (freq fs : ℚ) : Except String Oscillator :=
  if 0 < freq ∧ freq < fs / 2 then
    .ok { phase := 0, freq := freq, sampleRate := fs }
  else
    .error "init_sine_oscillator: requires 0 < frequency < sample_rate / 2"

/-- Modelled from the spec: dsp.h is not in src/.  Per §4.2 and §7, the
low-pass constructor requires a positive sample rate and cutoff below the
Nyquist frequency; the design formula itself is irrelevant to the claims
and is abstracted as the coefficient tuple `c`.  The delay line starts at
zero. -/
def init_lpf (c : ℚ × ℚ × ℚ × ℚ × ℚ) (cutoff q fs : ℚ) : Except String BiquadFilter :=
  if 0 < fs ∧ cutoff < fs / 2 then
    .ok { b0 := c.1, b1 := c.2.1, b2 := c.2.2.1, a1 := c.2.2.2.1, a2 := c.2.2.2.2,
          x1 := 0, x2 := 0, y1 := 0, y2 := 0 }
  else
    .error "init_lpf: requires 0 < sample_rate and cutoff < sample_rate / 2"

/-- Modelled from the spec: dsp.h is not in src/.  Per §4.2 and §7, the
preemphasis constructor requires a positive time constant and a positive
sample rate; the design formula is abstracted as `c`. -/
def init_preemphasis (c : ℚ × ℚ × ℚ × ℚ × ℚ) (tau fs : ℚ) : Except String BiquadFilter :=
  if 0 < tau ∧ 0 < fs then
    .ok { b0 := c.1, b1 := c.2.1, b2 := c.2.2.1, a1 := c.2.2.2.1, a2 := c.2.2.2.2,
          x1 := 0, x2 := 0, y1 := 0, y2 := 0 }
  else
    .error "init_preemphasis: requires 0 < tau and 0 < sample_rate"

/-- The construction sequence of src/fm96.c lines 133-149 (pilot at
19000 Hz, both low-pass filters at 15000 Hz and Q = 5, both preemphasis
filters at tau = 50e-6), with the spec §7 fatal-on-failure semantics:
the first failing constructor aborts setup. -/
def setup (lpfC preC : ℚ × ℚ × ℚ × ℚ × ℚ) (sr : ℚ) : Except String DSPState := do
  let pilot ← init_sine_oscillator 19000 sr
  let lpfL ← init_lpf lpfC 15000 5 sr
  let lpfR ← init_lpf lpfC 15000 5 sr
  let preL ← init_preemphasis preC (50 / 1000000) sr
  let preR ← init_preemphasis preC (50 / 1000000) sr
  pure { pilot := pilot, chL := { preemp := preL, lpf := lpfL },
         chR := { preemp := preR, lpf := lpfR } }

/-- The program after device setup: construct the DSP state and, only on
success, enter the streaming loop (src/fm96.c lines 133-203 with the
spec §7 construction-failure semantics). -/
def runProgram (lpfC preC : ℚ × ℚ × ℚ × ℚ × ℚ) (sr : ℚ) (sinT : ℚ → ℚ)
    (cfg : Config) (flags : Nat → Bool) (events : List Event) :
    Except String LoopState :=
  match setup lpfC preC sr with
  | .error msg => .error msg
  | .ok dsp => .ok (runLoop sinT cfg flags (initLoopState dsp) events)

/-! ## Helper lemmas -/

lemma getD_map_range {α : Type} (f : Nat → α) (k i : Nat) (d : α) (h : i < k) :
    ((List.range k).map f).getD i d = f i := by
  simp [List.getD, List.getElem?_map, List.getElem?_range, h]

lemma processSamples_length (sinT : ℚ → ℚ) (flag : Bool) :
    ∀ (ts : List (ℚ × ℚ × ℚ)) (st : DSPState),
      (processSamples sinT flag st ts).2.length = ts.length
  | [], _ => rfl
  | _ :: ts, st => by
    simp [processSamples, processSamples_length sinT flag ts]

lemma sampleStep_pilot (sinT : ℚ → ℚ) (flag : Bool) (st : DSPState) (l r m : ℚ) :
    (sampleStep sinT flag st l r m).1.pilot = st.pilot.advance := rfl

lemma processSamples_pilot (sinT : ℚ → ℚ) (flag : Bool) :
    ∀ (ts : List (ℚ × ℚ × ℚ)) (st : DSPState),
      (processSamples sinT flag st ts).1.pilot =
        Oscillator.advance^[ts.length] st.pilot
  | [], _ => rfl
  | t :: ts, st => by
    have ih := processSamples_pilot sinT flag ts
      (sampleStep sinT flag st t.1 t.2.1 t.2.2).1
    simp only [processSamples, List.length_cons, Function.iterate_succ_apply]
    rw [ih, sampleStep_pilot]

lemma processSamples_getD (sinT : ℚ → ℚ) (flag : Bool) :
    ∀ (ts : List (ℚ × ℚ × ℚ)) (st : DSPState) (i : Nat), i < ts.length →
      (processSamples sinT flag st ts).2.getD i 0 =
        (sampleStep sinT flag (processSamples sinT flag st (ts.take i)).1
          (ts.getD i (0, 0, 0)).1 (ts.getD i (0, 0, 0)).2.1
          (ts.getD i (0, 0, 0)).2.2).2
  | [], _, i, h => absurd h (by simp)
  | t :: ts, st, 0, _ => by
    simp [processSamples]
  | t :: ts, st, i + 1, h => by
    simp only [processSamples, List.getD_cons_succ, List.take_succ_cons,
      List.length_cons] at *
    exact processSamples_getD sinT flag ts _ i (by omega)

lemma processBlock_length (sinT : ℚ → ℚ) (flag : Bool) (st : DSPState)
    (input mpx : List ℚ) :
    (processBlock sinT flag st input mpx).2.length = BUFFER_SIZE := by
  simp [processBlock, processSamples_length, mkTriples]

lemma loopIter_stopped (sinT : ℚ → ℚ) (cfg : Config) (flags : Nat → Bool)
    (st : LoopState) (e : Event) (h : st.running = false) :
    loopIter sinT cfg flags st e = st := by
  simp [loopIter, h]

lemma runLoop_stopped (sinT : ℚ → ℚ) (cfg : Config) (flags : Nat → Bool) :
    ∀ (es : List Event) (st : LoopState), st.running = false →
      runLoop sinT cfg flags st es = st
  | [], _, _ => rfl
  | e :: es, st, h => by
    rw [runLoop, loopIter_stopped sinT cfg flags st e h]
    exact runLoop_stopped sinT cfg flags es st h

lemma loopIter_mpxBuf (sinT : ℚ → ℚ) (cfg : Config) (flags : Nat → Bool)
    (st : LoopState) (e : Event) (h : cfg.mpxConfigured = false) :
    (loopIter sinT cfg flags st e).mpxBuf = st.mpxBuf := by
  unfold loopIter
  simp only [h, Bool.false_eq_true, if_false]
  repeat' split
  all_goals simp_all

lemma runLoop_mpxBuf (sinT : ℚ → ℚ) (cfg : Config) (flags : Nat → Bool)
    (h : cfg.mpxConfigured = false) :
    ∀ (es : List Event) (st : LoopState),
      (runLoop sinT cfg flags st es).mpxBuf = st.mpxBuf
  | [], _ => rfl
  | e :: es, st => by
    rw [runLoop, runLoop_mpxBuf sinT cfg flags h es,
      loopIter_mpxBuf sinT cfg flags st e h]

/-! ## Concrete instances used by the witness theorems -/

def idQ : ℚ → ℚ := fun x => x

def bqW : BiquadFilter :=
  { b0 := 1, b1 := 0, b2 := 0, a1 := 0, a2 := 0, x1 := 0, x2 := 0, y1 := 0, y2 := 0 }

def chW : Channel := { preemp := bqW, lpf := bqW }

def oscW : Oscillator := { phase := 0, freq := 19000, sampleRate := 192000 }

def dspW : DSPState := { pilot := oscW, chL := chW, chR := chW }

def stW : LoopState := initLoopState dspW

def cfgW : Config := { stereoFlag := true, mpxConfigured := false }

def flagsF : Nat → Bool := fun _ => false

def flagsT : Nat → Bool := fun _ => true

def eOk : Event := { inputRead := some [], mpxRead := some [], writeOk := true }

def eFail : Event := { inputRead := none, mpxRead := some [], writeOk := true }

/-! ## Claim theorems -/

/-- C1: evaluation of the code at the failing input.  With stereo enabled
(flag = true) and equal filtered channel samples L = R = 1, pilot sample 1
and no external MPX, the composite produced by the code is the plain mono
value 1, not the claimed mono*0.45 + pilot*0.09 = 0.54: the `if(stereo)`
at src/fm96.c line 190 tests the shadowing difference float of line 188,
which is 0 here, so the pilot and scaling are dropped. -/
theorem c1_failing_input_eval :
    mpxSample true 1 1 1 0 0 = 1 ∧
    ((1 : ℚ) + 1) / 2 * 0.45 + 1 * 0.09 ≠ 1 := by
  constructor
  · norm_num [mpxSample, compositeSample]
  · norm_num

/-- C2: evaluation of the code at the failing input.  With stereo disabled
(flag = false) and filtered samples L = 1, R = -1, pilot 1, subcarrier 1
and no external MPX, the code still takes the stereo branch (the shadowed
float (L-R)/2 = 1 is nonzero) and outputs 0.54, not the claimed mono sum
(L+R)/2 = 0. -/
theorem c2_failing_input_eval :
    mpxSample false 1 (-1) 1 1 0 = 0.54 ∧
    ((1 : ℚ) + (-1)) / 2 ≠ 0.54 := by
  constructor
  · norm_num [mpxSample, compositeSample]
  · norm_num

/-- C3: the branch between the stereo composite formula and the plain mono
output is decided by the just-computed difference float (lpf_out_l -
lpf_out_r)/2 being nonzero, the command-line stereo flag being shadowed
and hence irrelevant: whenever the filtered outputs are equal the
composite is plain mono plus the external sample, and whenever they differ
the pilot and subcarrier terms are present, for either flag value. -/
theorem c3_branch_on_shadowed_difference :
    ∀ (l r p c m : ℚ),
      (∀ f1 f2 : Bool, mpxSample f1 l r p c m = mpxSample f2 l r p c m)
      ∧ ((l - r) / 2 = 0 → ∀ f : Bool,
           mpxSample f l r p c m = (l + r) / 2 + m)
      ∧ ((l - r) / 2 ≠ 0 → ∀ f : Bool,
           mpxSample f l r p c m =
             (l + r) / 2 * 0.45 + p * 0.09 + ((l - r) / 2 * c) * 0.45 + m) := by
  intro l r p c m
  refine ⟨fun f1 f2 => rfl, fun h f => ?_, fun h f => ?_⟩
  · simp [mpxSample, compositeSample, h]
  · simp [mpxSample, compositeSample, h]

/-- Witness for C3 at concrete inputs: equal filtered samples give plain
mono regardless of the flag, and distinct filtered samples give the full
stereo formula even with the flag false. -/
theorem c3_witness :
    mpxSample true 1 1 2 3 4 = mpxSample false 1 1 2 3 4
    ∧ mpxSample true 1 1 2 3 4 = (1 + 1) / 2 + 4
    ∧ mpxSample false 2 0 5 7 1 =
        (2 + 0) / 2 * 0.45 + 5 * 0.09 + ((2 - 0) / 2 * 7) * 0.45 + 1 := by
  refine ⟨(c3_branch_on_shadowed_difference 1 1 2 3 4).1 true false,
    (c3_branch_on_shadowed_difference 1 1 2 3 4).2.1 (by norm_num) true,
    (c3_branch_on_shadowed_difference 2 0 5 7 1).2.2 (by norm_num) false⟩

/-- C5: superposition of the external multiplex sample.  The external
sample is added unconditionally after the stereo branch (src/fm96.c line
195), so the composite with external sample X minus the composite with
external sample 0 is exactly X, for every flag and all filtered and
oscillator samples. -/
theorem c5_external_mpx_superposition :
    ∀ (f : Bool) (l r p c X : ℚ),
      mpxSample f l r p c X - mpxSample f l r p c 0 = X := by
  intro f l r p c X
  simp [mpxSample]

lemma sampleStep_out (sinT : ℚ → ℚ) (flag : Bool) (st : DSPState) (l r m : ℚ) :
    (sampleStep sinT flag st l r m).2 =
      mpxSample flag (st.chL.step l).2 (st.chR.step r).2
        (sinT st.pilot.phase) (sinT (2 * st.pilot.phase)) m := by
  simp [sampleStep, Oscillator.evaluate]

/-- C4: phase-locked harmonic generation.  In the per-sample loop the
pilot sample and the stereo subcarrier sample at index i are both
evaluated from the same oscillator phase - the phase after exactly i
advances of the initial oscillator - the subcarrier being the sine of
twice that phase, and across the whole block the phase is advanced
exactly once per sample. -/
theorem c4_harmonics_share_phase_one_advance :
    ∀ (sinT : ℚ → ℚ) (flag : Bool) (st : DSPState) (ts : List (ℚ × ℚ × ℚ))
      (i : Nat), i < ts.length →
      ((processSamples sinT flag st ts).2.getD i 0 =
        mpxSample flag
          (((processSamples sinT flag st (ts.take i)).1.chL.step
              (ts.getD i (0, 0, 0)).1).2)
          (((processSamples sinT flag st (ts.take i)).1.chR.step
              (ts.getD i (0, 0, 0)).2.1).2)
          (sinT (Oscillator.advance^[i] st.pilot).phase)
          (sinT (2 * (Oscillator.advance^[i] st.pilot).phase))
          (ts.getD i (0, 0, 0)).2.2)
      ∧ (processSamples sinT flag st ts).1.pilot =
          Oscillator.advance^[ts.length] st.pilot := by
  intro sinT flag st ts i h
  constructor
  · have hp : (processSamples sinT flag st (ts.take i)).1.pilot =
        Oscillator.advance^[i] st.pilot := by
      rw [processSamples_pilot, List.length_take, Nat.min_eq_left (le_of_lt h)]
    rw [processSamples_getD sinT flag ts st i h, sampleStep_out, hp]
  · exact processSamples_pilot sinT flag ts st

/-- Witness for C4: one concrete sample through a concrete state.  The
pilot sample is the sine of the initial phase, the subcarrier the sine of
twice that same phase, and the state afterwards holds the once-advanced
oscillator. -/
theorem c4_witness :
    ((processSamples idQ true dspW [(1, 2, 3)]).2.getD 0 0 =
      mpxSample true ((dspW.chL.step 1).2) ((dspW.chR.step 2).2)
        (idQ dspW.pilot.phase) (idQ (2 * dspW.pilot.phase)) 3)
    ∧ (processSamples idQ true dspW [(1, 2, 3)]).1.pilot =
        Oscillator.advance^[1] dspW.pilot := by
  have h := c4_harmonics_share_phase_one_advance idQ true dspW [(1, 2, 3)] 0
    (by decide)
  exact ⟨h.1, h.2⟩

/-- C8: per-block processing order.  The deinterleaver sends even-indexed
scalars to the left channel and odd-indexed scalars to the right channel
(left[i] = input[2i], right[i] = input[2i+1] for every i below half the
scalar count), each channel sample passes through that channel's
preemphasis filter first and the low-pass filter second, and at loop
index j the three per-sample inputs are left[j], right[j] and mpx[j]. -/
theorem c8_deinterleave_then_preemp_then_lpf :
    (∀ (input : List ℚ) (n i : Nat), i < n / 2 →
       (uninterleave input n).1.getD i 0 = input.getD (2 * i) 0
       ∧ (uninterleave input n).2.getD i 0 = input.getD (2 * i + 1) 0)
    ∧ (∀ (ch : Channel) (x : ℚ),
        (ch.step x).2 = (ch.lpf.apply ((ch.preemp.apply x).2)).2
        ∧ (ch.step x).1 =
            { preemp := (ch.preemp.apply x).1,
              lpf := (ch.lpf.apply ((ch.preemp.apply x).2)).1 })
    ∧ (∀ (l r m : List ℚ) (j : Nat), j < BUFFER_SIZE →
        (mkTriples l r m).getD j (0, 0, 0) =
          (l.getD j 0, r.getD j 0, m.getD j 0)) := by
  refine ⟨fun input n i h => ⟨?_, ?_⟩, fun ch x => ⟨rfl, rfl⟩,
    fun l r m j h => ?_⟩
  · simpa [uninterleave] using
      getD_map_range (fun i => input.getD (2 * i) 0) (n / 2) i 0 h
  · simpa [uninterleave] using
      getD_map_range (fun i => input.getD (2 * i + 1) 0) (n / 2) i 0 h
  · simpa [mkTriples] using
      getD_map_range (fun i => (l.getD i 0, r.getD i 0, m.getD i 0))
        BUFFER_SIZE j (0, 0, 0) h

/-- Witness for C8 at concrete inputs: a four-scalar interleaved block
deinterleaves as claimed, a concrete channel applies preemphasis before
the low-pass filter, and index 0 of the triple list pairs the three
streams at the same index. -/
theorem c8_witness :
    ((uninterleave [10, 20, 30, 40] 4).1.getD 1 0 = [10, 20, 30, 40].getD 2 0
     ∧ (uninterleave [10, 20, 30, 40] 4).2.getD 1 0 = [10, 20, 30, 40].getD 3 0)
    ∧ ((chW.step 3).2 = (chW.lpf.apply ((chW.preemp.apply 3).2)).2
       ∧ (chW.step 3).1 =
           { preemp := (chW.preemp.apply 3).1,
             lpf := (chW.lpf.apply ((chW.preemp.apply 3).2)).1 })
    ∧ (mkTriples [1] [2] [3]).getD 0 (0, 0, 0) =
        ([1].getD 0 0, [2].getD 0 0, [3].getD 0 0) := by
  refine ⟨c8_deinterleave_then_preemp_then_lpf.1 [10, 20, 30, 40] 4 1 (by decide),
    c8_deinterleave_then_preemp_then_lpf.2.1 chW 3,
    c8_deinterleave_then_preemp_then_lpf.2.2 [1] [2] [3] 0 ?_⟩
  decide

/-- C7: when no external MPX device is configured, the MPX buffer starts
zero-filled (src/fm96.c line 156) and no iteration of the streaming loop
ever writes to it, so it holds zero at every index on every iteration,
and adding a zero external sample leaves the composite unchanged. -/
theorem c7_unconfigured_mpx_stays_zero :
    ∀ (sinT : ℚ → ℚ) (cfg : Config) (flags : Nat → Bool),
      cfg.mpxConfigured = false →
      (∀ (dsp : DSPState) (events : List Event),
         (runLoop sinT cfg flags (initLoopState dsp) events).mpxBuf =
           List.replicate BUFFER_SIZE 0)
      ∧ (∀ (st : LoopState) (e : Event),
           (loopIter sinT cfg flags st e).mpxBuf = st.mpxBuf)
      ∧ (∀ i : Nat, (List.replicate BUFFER_SIZE (0 : ℚ)).getD i 0 = 0)
      ∧ (∀ (f : Bool) (l r p c : ℚ),
           mpxSample f l r p c 0 = compositeSample f l r p c) := by
  intro sinT cfg flags h
  refine ⟨fun dsp events => ?_, fun st e => loopIter_mpxBuf sinT cfg flags st e h,
    fun i => ?_, fun f l r p c => by simp [mpxSample]⟩
  · rw [runLoop_mpxBuf sinT cfg flags h]
    rfl
  · rcases lt_or_ge i BUFFER_SIZE with hi | hi
    · simp [List.getD, List.getElem?_replicate, hi]
    · simp [List.getD, List.getElem?_replicate, Nat.not_lt.mpr hi]

/-- Witness for C7 at concrete inputs: a one-event run with an
unconfigured MPX device keeps the buffer at the zero block, a concrete
iteration does not touch it, index 5 of the zero block reads 0, and a
concrete composite is unchanged by adding the zero external sample. -/
theorem c7_witness :
    (runLoop idQ cfgW flagsF (initLoopState dspW) [eOk]).mpxBuf =
      List.replicate BUFFER_SIZE 0
    ∧ (loopIter idQ cfgW flagsF stW eOk).mpxBuf = stW.mpxBuf
    ∧ (List.replicate BUFFER_SIZE (0 : ℚ)).getD 5 0 = 0
    ∧ mpxSample true 1 2 3 4 0 = compositeSample true 1 2 3 4 := by
  have h := c7_unconfigured_mpx_stays_zero idQ cfgW flagsF rfl
  exact ⟨h.1 dspW [eOk], h.2.1 stW eOk, h.2.2.1 5, h.2.2.2 true 1 2 3 4⟩

/-- C10: configuration preconditions are checked at construction.  The
low-pass constructor rejects a cutoff at or above the Nyquist frequency,
the preemphasis constructor rejects a non-positive time constant, the
oscillator constructor rejects a non-positive frequency or sample rate,
and for this program (pilot 19000 Hz, cutoff 15000 Hz) any sample rate
that is non-positive or puts the cutoff at or above Nyquist makes setup
fail, so the streaming loop is never entered. -/
theorem c10_invalid_config_fails_construction :
    (∀ (c : ℚ × ℚ × ℚ × ℚ × ℚ) (cutoff q fs : ℚ), fs / 2 ≤ cutoff →
       init_lpf c cutoff q fs =
         .error "init_lpf: requires 0 < sample_rate and cutoff < sample_rate / 2")
    ∧ (∀ (c : ℚ × ℚ × ℚ × ℚ × ℚ) (tau fs : ℚ), tau ≤ 0 →
       init_preemphasis c tau fs =
         .error "init_preemphasis: requires 0 < tau and 0 < sample_rate")
    ∧ (∀ freq fs : ℚ, freq ≤ 0 ∨ fs ≤ 0 →
       init_sine_oscillator freq fs =
         .error "init_sine_oscillator: requires 0 < frequency < sample_rate / 2")
    ∧ (∀ (lpfC preC : ℚ × ℚ × ℚ × ℚ × ℚ) (sr : ℚ), sr ≤ 0 ∨ sr / 2 ≤ 15000 →
       setup lpfC preC sr =
         .error "init_sine_oscillator: requires 0 < frequency < sample_rate / 2"
       ∧ ∀ (sinT : ℚ → ℚ) (cfg : Config) (flags : Nat → Bool)
           (events : List Event),
           runProgram lpfC preC sr sinT cfg flags events =
             .error "init_sine_oscillator: requires 0 < frequency < sample_rate / 2") := by
  refine ⟨fun c cutoff q fs h => ?_, fun c tau fs h => ?_, fun freq fs h => ?_,
    fun lpfC preC sr h => ?_⟩
  · have : ¬(0 < fs ∧ cutoff < fs / 2) := by rintro ⟨-, h2⟩; linarith
    simp [init_lpf, this]
  · have : ¬(0 < tau ∧ 0 < fs) := by rintro ⟨h1, -⟩; linarith
    simp [init_preemphasis, this]
  · have : ¬(0 < freq ∧ freq < fs / 2) := by
      rintro ⟨h1, h2⟩
      rcases h with h | h <;> linarith
    simp [init_sine_oscillator, this]
  · have hosc : init_sine_oscillator 19000 sr =
        .error "init_sine_oscillator: requires 0 < frequency < sample_rate / 2" := by
      have h2 : ¬((19000 : ℚ) < sr / 2) := by
        rcases h with h | h <;> · rw [not_lt]; linarith
      simp [init_sine_oscillator, h2]
    have hsetup : setup lpfC preC sr =
        .error "init_sine_oscillator: requires 0 < frequency < sample_rate / 2" := by
      simp [setup, hosc, Bind.bind, Except.bind]
    exact ⟨hsetup, fun sinT cfg flags events => by simp [runProgram, hsetup]⟩

/-- Witness for C10 at concrete inputs: a 16 kHz cutoff at a 30 kHz
sample rate, a zero time constant, a zero oscillator frequency, and a
1000 Hz sample rate for the whole program all fail at construction. -/
theorem c10_witness :
    init_lpf (0, 0, 0, 0, 0) 16000 5 30000 =
      .error "init_lpf: requires 0 < sample_rate and cutoff < sample_rate / 2"
    ∧ init_preemphasis (0, 0, 0, 0, 0) 0 192000 =
      .error "init_preemphasis: requires 0 < tau and 0 < sample_rate"
    ∧ init_sine_oscillator 0 192000 =
      .error "init_sine_oscillator: requires 0 < frequency < sample_rate / 2"
    ∧ setup (0, 0, 0, 0, 0) (0, 0, 0, 0, 0) 1000 =
      .error "init_sine_oscillator: requires 0 < frequency < sample_rate / 2"
    ∧ runProgram (0, 0, 0, 0, 0) (0, 0, 0, 0, 0) 1000 idQ cfgW flagsF [eOk] =
      .error "init_sine_oscillator: requires 0 < frequency < sample_rate / 2" := by
  have h := c10_invalid_config_fails_construction
  have h4 := h.2.2.2 (0, 0, 0, 0, 0) (0, 0, 0, 0, 0) 1000 (Or.inr (by norm_num))
  exact ⟨h.1 (0, 0, 0, 0, 0) 16000 5 30000 (by norm_num),
    h.2.1 (0, 0, 0, 0, 0) 0 192000 (by norm_num),
    h.2.2.1 0 192000 (Or.inl (by norm_num)),
    h4.1, h4.2 idQ cfgW flagsF [eOk]⟩

/-- C6: device I/O failures are fatal and output is all-or-nothing.  If a
running iteration that saw no stop request hits a failed input read, a
failed MPX read (when configured) or a failed write, the loop state
becomes stopped with the written output unchanged (the current block is
discarded) and every further event leaves the state untouched; moreover
every iteration either writes nothing or appends exactly one fully
computed block of BUFFER_SIZE samples. -/
theorem c6_io_failure_fatal_no_partial_block :
    ∀ (sinT : ℚ → ℚ) (cfg : Config) (flags : Nat → Bool) (st : LoopState)
      (e : Event),
      st.running = true → flags st.flagCursor = false →
      (e.inputRead = none ∨ (cfg.mpxConfigured = true ∧ e.mpxRead = none)
        ∨ e.writeOk = false) →
      ((loopIter sinT cfg flags st e).running = false
       ∧ (loopIter sinT cfg flags st e).written = st.written
       ∧ ∀ es, runLoop sinT cfg flags (loopIter sinT cfg flags st e) es =
           loopIter sinT cfg flags st e)
      ∧ ∀ (st2 : LoopState) (e2 : Event),
          (loopIter sinT cfg flags st2 e2).written = st2.written
          ∨ ∃ input mbuf,
              e2.inputRead = some input
              ∧ (loopIter sinT cfg flags st2 e2).written =
                  st2.written ++
                    [(processBlock sinT cfg.stereoFlag st2.dsp input mbuf).2]
              ∧ (processBlock sinT cfg.stereoFlag st2.dsp input mbuf).2.length =
                  BUFFER_SIZE := by
  intro sinT cfg flags st e h1 h2 h3
  constructor
  · have hstop : (loopIter sinT cfg flags st e).running = false
        ∧ (loopIter sinT cfg flags st e).written = st.written := by
      rcases e with ⟨inp, mpxr, wok⟩
      rcases inp with _ | input
      · simp [loopIter, h1, h2]
      · rcases h3 with h3 | ⟨hc, hm⟩ | h3
        · exact absurd h3 (by simp)
        · simp only at hm
          subst hm
          simp [loopIter, h1, h2, hc]
        · simp only at h3
          subst h3
          rcases hmx : (if cfg.mpxConfigured = true then mpxr else some st.mpxBuf)
            with _ | mb
          · simp [loopIter, h1, h2, hmx]
          · simp [loopIter, h1, h2, hmx]
    exact ⟨hstop.1, hstop.2,
      fun es => runLoop_stopped sinT cfg flags es _ hstop.1⟩
  · intro st2 e2
    by_cases hr : st2.running = false
    · left
      rw [loopIter_stopped sinT cfg flags st2 e2 hr]
    · simp only [Bool.not_eq_false] at hr
      by_cases hf : flags st2.flagCursor = true
      · left
        simp [loopIter, hr, hf]
      · rcases e2 with ⟨inp, mpxr, wok⟩
        rcases inp with _ | input
        · left
          simp [loopIter, hr, hf]
        · rcases hmx : (if cfg.mpxConfigured = true then mpxr else some st2.mpxBuf)
            with _ | mb
          · left
            simp [loopIter, hr, hf, hmx]
          · rcases wok with _ | _
            · left
              simp [loopIter, hr, hf, hmx]
            · right
              exact ⟨input, mb, rfl, by simp [loopIter, hr, hf, hmx],
                processBlock_length sinT cfg.stereoFlag st2.dsp input mb⟩

/-- Witness for C6: a concrete running iteration with a failed input read
stops the loop without writing, and a subsequent event leaves the stopped
state untouched; a concrete iteration on an already-stopped state writes
nothing (or appends exactly one full block). -/
theorem c6_witness :
    ((loopIter idQ cfgW flagsF stW eFail).running = false
     ∧ (loopIter idQ cfgW flagsF stW eFail).written = stW.written
     ∧ runLoop idQ cfgW flagsF (loopIter idQ cfgW flagsF stW eFail) [eOk] =
         loopIter idQ cfgW flagsF stW eFail)
    ∧ ((loopIter idQ cfgW flagsF stW eOk).written = stW.written
       ∨ ∃ input mbuf,
           eOk.inputRead = some input
           ∧ (loopIter idQ cfgW flagsF stW eOk).written =
               stW.written ++
                 [(processBlock idQ cfgW.stereoFlag stW.dsp input mbuf).2]
           ∧ (processBlock idQ cfgW.stereoFlag stW.dsp input mbuf).2.length =
               BUFFER_SIZE) := by
  have h := c6_io_failure_fatal_no_partial_block idQ cfgW flagsF stW eFail
    rfl rfl (Or.inl rfl)
  exact ⟨⟨h.1.1, h.1.2.1, h.1.2.2 [eOk]⟩, h.2 stW eOk⟩

/-- C9: the cooperative stop request is observed exactly once per block,
at the loop head before any read.  Each running iteration advances the
observation cursor by exactly one; the iteration outcome depends on the
stop stream only through that single observation; an observed stop
request halts the loop before any read, processing or write; and if the
observation was false and the per-block I/O succeeds, the entire block is
processed and written within that same iteration. -/
theorem c9_shutdown_sampled_once_per_block :
    ∀ (sinT : ℚ → ℚ) (cfg : Config) (flags flags2 : Nat → Bool)
      (st : LoopState) (e : Event),
      st.running = true →
      ((loopIter sinT cfg flags st e).flagCursor = st.flagCursor + 1)
      ∧ (flags st.flagCursor = flags2 st.flagCursor →
           loopIter sinT cfg flags st e = loopIter sinT cfg flags2 st e)
      ∧ (flags st.flagCursor = true →
           loopIter sinT cfg flags st e =
             { st with running := false, flagCursor := st.flagCursor + 1 })
      ∧ (flags st.flagCursor = false →
           ∀ input, e.inputRead = some input →
           (cfg.mpxConfigured = true → e.mpxRead ≠ none) →
           e.writeOk = true →
           ∃ b, (loopIter sinT cfg flags st e).written = st.written ++ [b]
             ∧ b.length = BUFFER_SIZE) := by
  intro sinT cfg flags flags2 st e h1
  refine ⟨?_, ?_, ?_, ?_⟩
  · by_cases hf : flags st.flagCursor = true
    · simp [loopIter, h1, hf]
    · rcases e with ⟨inp, mpxr, wok⟩
      rcases inp with _ | input
      · simp [loopIter, h1, hf]
      · rcases hmx : (if cfg.mpxConfigured = true then mpxr else some st.mpxBuf)
          with _ | mb
        · simp [loopIter, h1, hf, hmx]
        · rcases wok with _ | _ <;> simp [loopIter, h1, hf, hmx]
  · intro hagree
    unfold loopIter
    simp only [hagree]
  · intro hf
    simp [loopIter, h1, hf]
  · intro hf input hinp hmpx hwok
    have hmx : (if cfg.mpxConfigured = true then e.mpxRead else some st.mpxBuf) =
        some (if cfg.mpxConfigured = true then e.mpxRead.getD [] else st.mpxBuf) := by
      by_cases hc : cfg.mpxConfigured = true
      · rcases hm : e.mpxRead with _ | ml
        · exact absurd hm (hmpx hc)
        · simp [hc, hm]
      · simp [hc]
    refine ⟨(processBlock sinT cfg.stereoFlag st.dsp input
      (if cfg.mpxConfigured = true then e.mpxRead.getD [] else st.mpxBuf)).2,
      ?_, processBlock_length sinT cfg.stereoFlag st.dsp input _⟩
    simp [loopIter, h1, hf, hinp, hmx, hwok]

/-- Witness for C9: with an all-false stop stream and a fully successful
event, a concrete iteration advances the observation cursor by one,
agrees with itself on the observed value, and writes a complete
BUFFER_SIZE block; with an all-true stop stream the same iteration halts
immediately without touching anything else. -/
theorem c9_witness :
    (loopIter idQ cfgW flagsF stW eOk).flagCursor = stW.flagCursor + 1
    ∧ loopIter idQ cfgW flagsF stW eOk = loopIter idQ cfgW flagsF stW eOk
    ∧ loopIter idQ cfgW flagsT stW eOk =
        { stW with running := false, flagCursor := stW.flagCursor + 1 }
    ∧ ∃ b, (loopIter idQ cfgW flagsF stW eOk).written = stW.written ++ [b]
        ∧ b.length = BUFFER_SIZE := by
  have hF := c9_shutdown_sampled_once_per_block idQ cfgW flagsF flagsF stW eOk rfl
  have hT := c9_shutdown_sampled_once_per_block idQ cfgW flagsT flagsT stW eOk rfl
  exact ⟨hF.1, hF.2.1 rfl, hT.2.2.1 rfl,
    hF.2.2.2 rfl [] rfl (fun hc => nomatch hc) rfl⟩

end FM96
